import Mathlib

/-!
Verification of the trawell-api-backend recommendation core
(`travel_agent.py`): the destination-input classifier, the preference /
seasonal / budget scorers, and the bucketed recommendation aggregation.

The Python code is shallowly embedded: Python floats are modelled as exact
rationals (`ℚ`), Python strings as Lean `String`, MongoDB collections as Lean
lists of documents, and exception paths as explicit `Except` values or
explicit guards at exactly the places the Python code can raise and catch.
MongoDB `$regex` queries built from user input are modelled with the
regular-expression metacharacters read literally (anchored `^q$` as
case-insensitive equality, `^q` as case-insensitive prefix, bare `q` as
case-insensitive substring), which is the behaviour on queries and catalog
names free of metacharacters.
-/

namespace Trawell

/-- `preOfList n h` is true when the character list `n` is an initial
segment of `h` (used to model both Python `str.startswith` semantics and the
anchored regex `^q`). -/
def preOfList : List Char → List Char → Bool
  | [], _ => true
  | _ :: _, [] => false
  | c :: cs, d :: ds => c == d && preOfList cs ds

/-- `subOfList n h` is true when the character list `n` occurs contiguously
somewhere inside `h`. -/
def subOfList (n : List Char) : List Char → Bool
  | [] => n.isEmpty
  | d :: ds => preOfList n (d :: ds) || subOfList n ds

/-- Python `needle in hay` on strings: contiguous substring containment. -/
def substrOf (needle hay : String) : Bool :=
  subOfList needle.data hay.data

/-- Python `str.strip()` with no argument: remove leading and trailing
whitespace. -/
def pyStrip (s : String) : String :=
  String.mk (((s.data.dropWhile Char.isWhitespace).reverse.dropWhile
    Char.isWhitespace).reverse)

/-- The anchored case-handled regex `^q` of `_find_city_in_mongodb`: the
haystack begins with the needle. -/
def prefixMatch (needle hay : String) : Bool :=
  preOfList needle.data hay.data

/-- Month names exactly as produced by `datetime.strftime("%B").lower()`
for months 1..12 (`travel_agent.py:617`). -/
def month_name : Nat → String
  | 1 => "january"
  | 2 => "february"
  | 3 => "march"
  | 4 => "april"
  | 5 => "may"
  | 6 => "june"
  | 7 => "july"
  | 8 => "august"
  | 9 => "september"
  | 10 => "october"
  | 11 => "november"
  | 12 => "december"
  | _ => ""

/-- The `cost` field of an item document: a number, absent (Python
`item_data.get("cost", 0)` then defaults it to `0`), or a value on which
`float(...)` raises (a non-numeric string, a list, ...). -/
inductive CostField where
  | num (q : ℚ)
  | absent
  | nonNumeric
deriving DecidableEq, Repr

/-- A catalog item (a city or a place) as consumed by the scoring functions
of `travel_agent.py`.  Fields the scorers read through `.get` with a default
are modelled with `Option` (`none` = key absent). -/
structure Item where
  name : String := ""
  tags : List String := []
  type : String := ""
  rating : Option ℚ := none
  description : String := ""
  best_time_to_visit : String := ""
  cost : CostField := .absent
deriving DecidableEq, Repr

/-- `float(item_data.get("rating", 4.0))` (`travel_agent.py:514`). -/
def itemRating (it : Item) : ℚ := it.rating.getD 4

/-- `TravelAgent._budget_optimization` (`travel_agent.py:644-673`).
`float(...)` on a non-numeric cost raises and the handler returns `1.0`;
`item_cost == 0` (including the absent-cost default `0`) returns `1.0`;
a zero `user_budget` makes the division raise `ZeroDivisionError`, which the
handler also turns into `1.0`.  Otherwise the multiplier is the step
function of the per-person budget percentage. -/
def budget_optimization (cost : CostField) (user_budget : ℚ) (group_size : ℤ) : ℚ :=
  match cost with
  | .nonNumeric => 1
  | .absent => 1
  | .num item_cost =>
    if item_cost = 0 then 1
    else
      let per_person_cost : ℚ := item_cost / ((max group_size 1 : ℤ) : ℚ)
      if user_budget = 0 then 1
      else
        let budget_percentage : ℚ := per_person_cost / user_budget * 100
        if budget_percentage ≤ 5 then 1.5
        else if budget_percentage ≤ 15 then 1.2
        else if budget_percentage ≤ 30 then 1
        else if budget_percentage ≤ 50 then 0.8
        else 0.5

/-- The start of the travel dates as seen by `_seasonal_optimization`
(`travel_agent.py:606-642`): `none` models an empty/absent `start_date`
string as well as one on which `datetime.strptime` raises (both paths
return `1.0`); `some m` models a well-formed date whose month is `m`
(1..12). -/
abbrev StartMonth := Option Nat

/-- `TravelAgent._seasonal_optimization` (`travel_agent.py:606-642`). -/
def seasonal_optimization (it : Item) (start_month : StartMonth) : ℚ :=
  match start_month with
  | none => 1
  | some m =>
    let month := month_name m
    let best_time := it.best_time_to_visit.toLower
    if best_time = "" then 1
    else if substrOf month best_time then 1.5
    else if substrOf "winter" best_time || substrOf "summer" best_time
        || substrOf "monsoon" best_time then
      if (month = "december" || month = "january" || month = "february")
          && substrOf "winter" best_time then 1.3
      else if (month = "march" || month = "april" || month = "may")
          && substrOf "summer" best_time then 1.3
      else if (month = "june" || month = "july" || month = "august" || month = "september")
          && substrOf "monsoon" best_time then 1.3
      else 0.7
    else 1

/-- One field of the `personality_answers` dict: absent from the dict
(`dict.get(k, '')` then yields `''`), present with value `None`
(`None.lower()` raises `AttributeError`), or present with a string value. -/
inductive PrefField where
  | absent
  | null
  | str (s : String)
deriving DecidableEq, Repr

/-- `user_preferences.get(k, '').lower()` (`travel_agent.py:505-509`):
`none` models the raised `AttributeError` on a `None` value. -/
def PrefField.lowered : PrefField → Option String
  | .absent => some ""
  | .null => none
  | .str s => some s.toLower

/-- The five preference answers read by `_enhanced_personalization_score`. -/
structure Prefs where
  travel_excitement : PrefField := .absent
  free_time_preference : PrefField := .absent
  openness_to_new_experiences : PrefField := .absent
  travel_planning_style : PrefField := .absent
  travel_life_role : PrefField := .absent
deriving DecidableEq, Repr

/-- Python `any(tag in keywords for tag in item_tags)`. -/
def anyTagIn (item_tags keywords : List String) : Bool :=
  item_tags.any (fun tag => keywords.contains tag)

/-- Signal 1, travel excitement (`travel_agent.py:517-535`, weight 0.25). -/
def excitement_score (travel_excitement : String) (item_tags : List String) : ℚ :=
  if travel_excitement = "exploring" then
    if anyTagIn item_tags ["adventure", "explore", "trek", "hike", "outdoor"] then 1
    else if anyTagIn item_tags ["historical", "heritage", "cultural"] then 0.8
    else 0
  else if travel_excitement = "relaxing" then
    if anyTagIn item_tags ["spa", "yoga", "meditation", "peaceful", "serene"] then 1
    else if anyTagIn item_tags ["lake", "garden", "nature"] then 0.8
    else 0
  else if travel_excitement = "cultural" then
    if anyTagIn item_tags ["temple", "museum", "heritage", "cultural", "traditional"] then 1
    else if anyTagIn item_tags ["historical", "art", "architecture"] then 0.8
    else 0
  else 0

/-- Signal 2, free-time preference (`travel_agent.py:538-551`, weight 0.20). -/
def free_time_score (free_time_preference : String) (item_tags : List String) : ℚ :=
  if free_time_preference = "outdoor" then
    if anyTagIn item_tags ["outdoor", "nature", "adventure", "trek", "hike"] then 1 else 0
  else if free_time_preference = "indoor" then
    if anyTagIn item_tags ["museum", "shopping", "cinema", "indoor"] then 1 else 0
  else if free_time_preference = "meditation/yoga" then
    if anyTagIn item_tags ["spa", "yoga", "meditation", "spiritual"] then 1 else 0
  else 0

/-- Signal 3, openness to new experiences (`travel_agent.py:553-567`,
weight 0.15). -/
def openness_score (openness : String) (item_tags : List String) (item_rating : ℚ) : ℚ :=
  if openness = "always excited" then
    if anyTagIn item_tags ["unique", "offbeat", "local", "authentic"] then 1
    else if item_rating < 4 then 0.8
    else 0
  else if openness = "prefer familiar things" then
    if 4 ≤ item_rating then 1
    else if anyTagIn item_tags ["popular", "famous", "well-known"] then 0.8
    else 0
  else 0

/-- Signal 4, travel planning style (`travel_agent.py:569-579`, weight 0.15). -/
def planning_score (travel_planning_style : String) (item_tags : List String) : ℚ :=
  if travel_planning_style = "well-planned itinerary" then
    if anyTagIn item_tags ["famous", "must-visit", "popular"] then 1 else 0
  else if travel_planning_style = "spontaneous plans" then
    if anyTagIn item_tags ["hidden", "offbeat", "local"] then 1 else 0
  else 0

/-- Signal 5, travel life role (`travel_agent.py:581-594`, weight 0.10). -/
def role_score (travel_life_role : String) (item_tags : List String) : ℚ :=
  if travel_life_role = "adventure seeker" then
    if anyTagIn item_tags ["adventure", "trek", "hike", "outdoor"] then 1 else 0
  else if travel_life_role = "culture enthusiast" then
    if anyTagIn item_tags ["cultural", "heritage", "temple", "museum"] then 1 else 0
  else if travel_life_role = "relaxation seeker" then
    if anyTagIn item_tags ["spa", "yoga", "peaceful", "serene"] then 1 else 0
  else 0

/-- The six fixed weights of `_enhanced_personalization_score`, in the order
they are accumulated into `total_weight` (`travel_agent.py:536-599`). -/
def preference_weights : List ℚ := [0.25, 0.20, 0.15, 0.15, 0.10, 0.15]

/-- The weighted-sum accumulation of `_enhanced_personalization_score`
(`travel_agent.py:517-599`) on already-lowered preference strings: returns
the pair `(score, total_weight)` exactly as the two accumulators stand
before the final normalization. -/
def score_accumulation (it : Item)
    (travel_excitement free_time_preference openness travel_planning_style
      travel_life_role : String) : ℚ × ℚ :=
  let item_tags := it.tags.map String.toLower
  let item_rating := itemRating it
  let score : ℚ := 0
  let total_weight : ℚ := 0
  let score := score + excitement_score travel_excitement item_tags * 0.25
  let total_weight := total_weight + 0.25
  let score := score + free_time_score free_time_preference item_tags * 0.20
  let total_weight := total_weight + 0.20
  let score := score + openness_score openness item_tags item_rating * 0.15
  let total_weight := total_weight + 0.15
  let score := score + planning_score travel_planning_style item_tags * 0.15
  let total_weight := total_weight + 0.15
  let score := score + role_score travel_life_role item_tags * 0.10
  let total_weight := total_weight + 0.10
  let score := score + min (item_rating / 5) 1 * 0.15
  let total_weight := total_weight + 0.15
  (score, total_weight)

/-- `TravelAgent._enhanced_personalization_score` (`travel_agent.py:496-604`).
The five `.lower()` calls happen first (lines 505-509), before any scoring;
a `None` preference value raises `AttributeError` there, modelled as
`Except.error ()` whenever any field is `None`.  The final normalization
(lines 601-604) divides the accumulated score by the accumulated
`total_weight` when it is positive and returns `0.0` otherwise. -/
def enhanced_personalization_score (it : Item) (user_preferences : Prefs) :
    Except Unit ℚ :=
  match user_preferences.travel_excitement.lowered,
      user_preferences.free_time_preference.lowered,
      user_preferences.openness_to_new_experiences.lowered,
      user_preferences.travel_planning_style.lowered,
      user_preferences.travel_life_role.lowered with
  | some travel_excitement, some free_time_preference, some openness,
      some travel_planning_style, some travel_life_role =>
    let acc := score_accumulation it travel_excitement free_time_preference openness
      travel_planning_style travel_life_role
    if 0 < acc.2 then .ok (acc.1 / acc.2) else .ok 0
  | _, _, _, _, _ => .error ()

/-- Round half to even, the tie rule of Python `round`. -/
def roundHalfEven (q : ℚ) : ℤ :=
  let f : ℤ := ⌊q⌋
  if q - f < 1/2 then f
  else if 1/2 < q - f then f + 1
  else if Even f then f else f + 1

/-- Python `round(x, 3)` on the exact rational model. -/
def round3 (q : ℚ) : ℚ := (roundHalfEven (q * 1000) : ℚ) / 1000

/-- The user/trip data read by `_get_personalized_recommendations`
(`travel_agent.py:680-683`): `budget` after `float(...)`, `num_of_travellers`
after `int(...)`, and the travel month extracted from
`travel_dates["start_date"]`. -/
structure UserData where
  personality_answers : Prefs := {}
  start_month : StartMonth := none
  budget : ℚ := 10000
  num_of_travellers : ℤ := 1
deriving DecidableEq, Repr

/-- One entry of the `scored_items` list built at `travel_agent.py:700-706`:
the item together with its four derived fields, each stored rounded to three
decimals. -/
structure ScoredItem where
  item : Item
  personalization_score : ℚ
  seasonal_multiplier : ℚ
  budget_multiplier : ℚ
  final_score : ℚ
deriving DecidableEq, Repr

/-- The body of the per-item loop of `_get_personalized_recommendations`
(`travel_agent.py:687-706`): a raised `AttributeError` from the preference
scorer propagates (`Except.error`). -/
def score_item (user_data : UserData) (it : Item) : Except Unit ScoredItem := do
  let personalization_score ← enhanced_personalization_score it user_data.personality_answers
  let seasonal_multiplier := seasonal_optimization it user_data.start_month
  let budget_multiplier := budget_optimization it.cost user_data.budget user_data.num_of_travellers
  let final_score := personalization_score * seasonal_multiplier * budget_multiplier
  return { item := it
           personalization_score := round3 personalization_score
           seasonal_multiplier := round3 seasonal_multiplier
           budget_multiplier := round3 budget_multiplier
           final_score := round3 final_score }

/-- The comparison handed to Python sorting with
`key=lambda x: x["final_score"], reverse=True`: descending by final score,
ties left in encounter order by stability. -/
def byFinalScoreDesc (a b : ScoredItem) : Bool :=
  decide (b.final_score ≤ a.final_score)

/-- `sorted(scored_items, key=lambda x: x["final_score"], reverse=True)`
(`travel_agent.py:709`): Python `sorted` is a stable merge sort; sorting
with `reverse=True` keeps equal elements in their original order. -/
def sort_scored (scored_items : List ScoredItem) : List ScoredItem :=
  scored_items.mergeSort byFinalScoreDesc

/-- `TravelAgent._get_personalized_recommendations`
(`travel_agent.py:675-714`).  On the first exception anywhere in the loop the
`except` handler returns the raw `items[:limit]` prefix unscored. -/
def get_personalized_recommendations (items : List Item) (user_data : UserData)
    (limit : Nat := 5) : Except (List Item) (List ScoredItem) :=
  match items.mapM (score_item user_data) with
  | .ok scored_items => .ok ((sort_scored scored_items).take limit)
  | .error _ => .error (items.take limit)

/-- A place entry inside a city document (only the fields the classifier
reads). -/
structure Place where
  name : String := ""
deriving DecidableEq, Repr

/-- A document of the `cities` MongoDB collection, restricted to the fields
the classifier reads. -/
structure CityDoc where
  city : String := ""
  state : String := ""
  places : List Place := []
deriving DecidableEq, Repr

/-- The `cities` collection as a snapshot: `find` iterates the documents in
this order, `find_one` returns the first match. -/
abbrev Catalog := List CityDoc

/-- The possible values of `input_type` in the result of
`parse_destination_input`. -/
inductive InputType where
  | state
  | city
  | landmark
deriving DecidableEq, Repr

/-- The dict returned by `parse_destination_input`
(`travel_agent.py:79-137`): `state` is set on every branch, `city` and
`landmark` only on some. -/
structure ClassificationResult where
  input_type : InputType
  parsed_value : String
  state : String
  city : Option String
  landmark : Option String
  confidence : ℚ
deriving DecidableEq, Repr

/-- `TravelAgent._find_city_in_mongodb` (`travel_agent.py:167-197`):
case-insensitive exact match first, then prefix match, then substring
match, each returning the lower-cased state and city of the first matching
document. -/
def find_city_in_mongodb (catalog : Catalog) (city_name : String) :
    Option (String × String) :=
  match catalog.find? (fun d => d.city.toLower == city_name.toLower) with
  | some d => some (d.state.toLower, d.city.toLower)
  | none =>
  match catalog.find? (fun d => prefixMatch city_name.toLower d.city.toLower) with
  | some d => some (d.state.toLower, d.city.toLower)
  | none =>
  match catalog.find? (fun d => substrOf city_name.toLower d.city.toLower) with
  | some d => some (d.state.toLower, d.city.toLower)
  | none => none

/-- `TravelAgent._find_state_in_mongodb` (`travel_agent.py:199-219`):
case-insensitive exact match, then substring match. -/
def find_state_in_mongodb (catalog : Catalog) (state_name : String) :
    Option String :=
  match catalog.find? (fun d => d.state.toLower == state_name.toLower) with
  | some d => some d.state.toLower
  | none =>
  match catalog.find? (fun d => substrOf state_name.toLower d.state.toLower) with
  | some d => some d.state.toLower
  | none => none

/-- Python `str.split()` with no argument: split on whitespace runs,
dropping empty pieces. -/
def splitWords (s : String) : List String :=
  ((s.data.splitOnP Char.isWhitespace).map String.mk).filter (fun w => w ≠ "")

/-- The landmark match condition of `_find_landmark_in_places`
(`travel_agent.py:152-154`) against an already-lowered place name. -/
def landmark_match (landmark_name place_name : String) : Bool :=
  substrOf landmark_name place_name || substrOf place_name landmark_name
    || (splitWords landmark_name).any (fun word => substrOf word place_name)

/-- The inner loop of `_find_landmark_in_places` over one city document. -/
def findPlaceInDoc (landmark_name : String) (d : CityDoc) :
    Option (String × String × String) :=
  match d.places.find? (fun p => landmark_match landmark_name p.name.toLower) with
  | some p => some (d.state.toLower, d.city.toLower, p.name)
  | none => none

/-- `TravelAgent._find_landmark_in_places` (`travel_agent.py:139-165`):
scan every place of every city, first match wins. -/
def find_landmark_in_places (catalog : Catalog) (landmark_name : String) :
    Option (String × String × String) :=
  catalog.findSome? (findPlaceInDoc landmark_name)

/-- `TravelAgent.parse_destination_input` (`travel_agent.py:79-137`):
lower-case and trim the input, then try city, state, landmark in that
order, falling back to a low-confidence state guess.  Total: it never
raises. -/
def parse_destination_input (catalog : Catalog) (destination_input : String) :
    ClassificationResult :=
  let input_lower := (pyStrip destination_input).toLower
  match find_city_in_mongodb catalog input_lower with
  | some (st, ci) =>
    { input_type := .city, parsed_value := input_lower, state := st,
      city := some ci, landmark := none, confidence := 0.9 }
  | none =>
  match find_state_in_mongodb catalog input_lower with
  | some _ =>
    { input_type := .state, parsed_value := input_lower, state := input_lower,
      city := none, landmark := none, confidence := 0.8 }
  | none =>
  match find_landmark_in_places catalog input_lower with
  | some (st, ci, lm) =>
    { input_type := .landmark, parsed_value := input_lower, state := st,
      city := some ci, landmark := some lm, confidence := 0.7 }
  | none =>
    { input_type := .state, parsed_value := input_lower, state := input_lower,
      city := none, landmark := none, confidence := 0.3 }

/-- The `city_info` dict built from a city document for bucket aggregation
(`travel_agent.py:256-267`, `travel_agent.py:1344-1355`, ...): only the
fields the bucket logic reads.  `rating` holds the document's `city_rating`
(the aggregation paths crash before producing a result when it is absent and
non-defaultable, so the aggregation claims are settled over documents that
carry a numeric rating). -/
structure CityInfo where
  name : String := ""
  rating : ℚ := 4
  tags : List String := []
  type : String := ""
deriving DecidableEq, Repr

/-- `sorted(cities, key=lambda x: float(x.get("rating", 0)), reverse=True)`:
a stable sort descending by rating. -/
def sortByRatingDesc (cities : List CityInfo) : List CityInfo :=
  cities.mergeSort (fun a b => decide (b.rating ≤ a.rating))

/-- `TravelAgent._popular_cities` (`travel_agent.py:1340-1359`): top 5 by
rating. -/
def popular_cities (cities : List CityInfo) : List CityInfo :=
  (sortByRatingDesc cities).take 5

/-- The hidden-gem selection condition (`travel_agent.py:1384-1386` and
`travel_agent.py:1178-1180`). -/
def hidden_gem_cond (c : CityInfo) : Bool :=
  decide (c.rating < 4)
    || c.tags.any (fun tag =>
        ["offbeat", "hidden", "local", "authentic", "lesser-known", "traditional"].contains
          tag.toLower)
    || ["spiritual_city", "adventure_destination"].contains c.type.toLower

/-- `TravelAgent._hidden_gem_cities` (`travel_agent.py:1361-1389`): the first
5 cities satisfying the hidden-gem condition, in catalog order. -/
def hidden_gem_cities (cities : List CityInfo) : List CityInfo :=
  (cities.filter hidden_gem_cond).take 5

/-- The three city buckets of an aggregation result. -/
structure CityBuckets where
  ai_recommended : List CityInfo
  popular : List CityInfo
  hidden_gems : List CityInfo
deriving DecidableEq, Repr

/-- The city buckets built by `TravelAgent._get_state_recommendations`
(`travel_agent.py:249-287`): the AI shortlist (an external input, passed
here as a parameter), the top 5 by rating, and the cities rated below 4.0 —
with no deduplication between the three lists.  The hidden-gems filter here
is rating-only (`travel_agent.py:273`). -/
def get_state_recommendations (ai_cities all_cities : List CityInfo) : CityBuckets :=
  { ai_recommended := ai_cities
    popular := (sortByRatingDesc all_cities).take 5
    hidden_gems := (all_cities.filter (fun c => decide (c.rating < 4))).take 5 }

/-- `{c.get("name") for c in cities if c.get("name")}`: the set of non-empty
names, modelled as a list queried only for membership. -/
def namesOf (cities : List CityInfo) : List String :=
  (cities.map CityInfo.name).filter (fun n => n ≠ "")

/-- The popular bucket after deduplication and backfill in
`generate_initial_recommendations` (`travel_agent.py:1124-1152`): names
already in the AI bucket are removed; if nothing is left, the top 3 by
rating (again minus AI names) are put back. -/
def popularAfterDedup (ai_cities all_cities : List CityInfo) : List CityInfo :=
  let ai_city_names := namesOf ai_cities
  let filtered := (popular_cities all_cities).filter
    (fun c => decide (c.name ∉ ai_city_names))
  if filtered.isEmpty then
    ((sortByRatingDesc all_cities).take 3).filter
      (fun c => decide (c.name ∉ ai_city_names))
  else filtered

/-- The hidden-gems bucket after deduplication and backfill in
`generate_initial_recommendations` (`travel_agent.py:1124-1183`): names in
the AI bucket or in the pre-dedup popular top 5 are removed; if nothing is
left, the first 3 hidden-gem candidates minus AI names and minus the names
of the (post-dedup) popular bucket are put back.  The backfill's popular
name set (`travel_agent.py:1183`) has no falsy-name guard, so it is the
plain name list. -/
def hiddenAfterDedup (ai_cities all_cities : List CityInfo) : List CityInfo :=
  let ai_city_names := namesOf ai_cities
  let popular_city_names := namesOf (popular_cities all_cities)
  let filtered := (hidden_gem_cities all_cities).filter
    (fun c => decide (c.name ∉ ai_city_names) && decide (c.name ∉ popular_city_names))
  if filtered.isEmpty then
    ((all_cities.filter hidden_gem_cond).take 3).filter
      (fun c => decide (c.name ∉ ai_city_names)
        && decide (c.name ∉ (popularAfterDedup ai_cities all_cities).map CityInfo.name))
  else filtered

/-- The city buckets built by `TravelAgent.generate_initial_recommendations`
(`travel_agent.py:1097-1214`, STEP 1). -/
def initial_city_buckets (ai_cities all_cities : List CityInfo) : CityBuckets :=
  { ai_recommended := ai_cities
    popular := popularAfterDedup ai_cities all_cities
    hidden_gems := hiddenAfterDedup ai_cities all_cities }

/-! ### Concrete inputs used by witnesses and counterexamples -/

/-- The per-person budget percentage of the spec (§4.4):
`(cost / max(groupSize,1)) / userBudget × 100`. -/
def budget_percentage_of (item_cost user_budget : ℚ) (group_size : ℤ) : ℚ :=
  item_cost / ((max group_size 1 : ℤ) : ℚ) / user_budget * 100

/-- The concrete item of the C6 counterexample: rating `4.4444`, best time
to visit `winter`, no cost. -/
def c6item : Item := { rating := some (11111/2500), best_time_to_visit := "winter" }

/-- The concrete user of the C6 counterexample: travelling in January,
empty preference answers. -/
def c6user : UserData := { start_month := some 1 }

/-- The catalog record of the C3/C9 witnesses: city Jaipur in state
Rajasthan, holding the landmark Hawa Mahal. -/
def jaipurDoc : CityDoc :=
  { city := "Jaipur", state := "Rajasthan", places := [{ name := "Hawa Mahal" }] }

/-- The scored item produced for the C6/C8 concrete inputs. -/
def c6scored : ScoredItem :=
  { item := c6item
    personalization_score := 133/1000
    seasonal_multiplier := 13/10
    budget_multiplier := 1
    final_score := 173/1000 }

/-- The single catalog city of the C1 counterexample: rating 3.5. -/
def smalltown : CityInfo := { name := "smalltown", rating := 7/2 }

/-! ### Helper lemmas -/

theorem toNat_ofNat_valid (n : Nat) (h : n.isValidChar) : (Char.ofNat n).toNat = n := by
  unfold Char.ofNat
  rw [dif_pos h]
  rfl

theorem char_toLower_idem (c : Char) : c.toLower.toLower = c.toLower := by
  unfold Char.toLower
  simp only
  by_cases h : c.toNat ≥ 65 ∧ c.toNat ≤ 90
  · rw [if_pos h, if_neg]
    intro hc
    rw [toNat_ofNat_valid] at hc
    · omega
    · exact Or.inl (by omega)
  · rw [if_neg h, if_neg h]

theorem string_toLower_idem (s : String) : s.toLower.toLower = s.toLower := by
  show (s.map Char.toLower).map Char.toLower = s.map Char.toLower
  rw [String.map_eq, String.map_eq]
  simp only [List.map_map]
  apply congrArg
  exact List.map_congr_left (fun c _ => char_toLower_idem c)

/-- Evaluation form of `String.toLower` (its `mapAux` implementation is
opaque to kernel reduction). -/
theorem string_toLower_data (s : String) :
    s.toLower = String.mk (s.data.map Char.toLower) := String.map_eq _ _

/-! ### C10: the budget adjuster is total on degenerate inputs -/

/-- C10: the budget-multiplier computation is total even when its
documented precondition is violated — with `userBudget = 0` the division
raises `ZeroDivisionError` and the handler returns the neutral `1.0`, and
with a non-numeric cost field `float(...)` raises and the handler again
returns `1.0`; no exception propagates. -/
theorem c10_budget_total_on_invalid_inputs :
    (∀ (cost : CostField) (group_size : ℤ), budget_optimization cost 0 group_size = 1) ∧
    (∀ (user_budget : ℚ) (group_size : ℤ),
      budget_optimization CostField.nonNumeric user_budget group_size = 1) :=
  ⟨fun cost _ => by cases cost <;> simp [budget_optimization], fun _ _ => rfl⟩

/-! ### C5: the budget adjuster step function -/

/-- C5: for every item with positive cost and positive user budget the
budget multiplier is the step function of the budget percentage
(`≤5% → 1.5`, `≤15% → 1.2`, `≤30% → 1.0`, `≤50% → 0.8`, `>50% → 0.5`);
an item with cost `0` or missing cost gives `1.0`; and the scenario
cost `500`, group size `2`, budget `10000` gives per-person cost `250`,
percentage `2.5` and multiplier `1.5`. -/
theorem c5_budget_multiplier_step_function :
    (∀ (item_cost user_budget : ℚ) (group_size : ℤ),
      0 < item_cost → 0 < user_budget →
      (budget_percentage_of item_cost user_budget group_size ≤ 5 →
        budget_optimization (CostField.num item_cost) user_budget group_size = 1.5) ∧
      (5 < budget_percentage_of item_cost user_budget group_size →
        budget_percentage_of item_cost user_budget group_size ≤ 15 →
        budget_optimization (CostField.num item_cost) user_budget group_size = 1.2) ∧
      (15 < budget_percentage_of item_cost user_budget group_size →
        budget_percentage_of item_cost user_budget group_size ≤ 30 →
        budget_optimization (CostField.num item_cost) user_budget group_size = 1) ∧
      (30 < budget_percentage_of item_cost user_budget group_size →
        budget_percentage_of item_cost user_budget group_size ≤ 50 →
        budget_optimization (CostField.num item_cost) user_budget group_size = 0.8) ∧
      (50 < budget_percentage_of item_cost user_budget group_size →
        budget_optimization (CostField.num item_cost) user_budget group_size = 0.5)) ∧
    (∀ (user_budget : ℚ) (group_size : ℤ),
      budget_optimization (CostField.num 0) user_budget group_size = 1 ∧
      budget_optimization CostField.absent user_budget group_size = 1) ∧
    ((500 : ℚ) / ((max (2 : ℤ) 1 : ℤ) : ℚ) = 250 ∧
      budget_percentage_of 500 10000 2 = 2.5 ∧
      budget_optimization (CostField.num 500) 10000 2 = 1.5) := by
  refine ⟨fun item_cost user_budget group_size hc hb => ?_,
    fun user_budget group_size => ⟨by simp [budget_optimization], rfl⟩,
    by norm_num, by norm_num [budget_percentage_of],
    by norm_num [budget_optimization]⟩
  have hc' : item_cost ≠ 0 := ne_of_gt hc
  have hb' : user_budget ≠ 0 := ne_of_gt hb
  simp only [budget_optimization, budget_percentage_of, if_neg hc', if_neg hb']
  refine ⟨fun h1 => by rw [if_pos h1],
    fun h1 h2 => by rw [if_neg (by linarith), if_pos h2],
    fun h1 h2 => by rw [if_neg (by linarith), if_neg (by linarith), if_pos h2],
    fun h1 h2 => by rw [if_neg (by linarith), if_neg (by linarith), if_neg (by linarith),
      if_pos h2],
    fun h1 => by rw [if_neg (by linarith), if_neg (by linarith), if_neg (by linarith),
      if_neg (by linarith)]⟩

/-- Witness for C5 at the concrete scenario of the claim. -/
theorem c5_budget_witness :
    (0 : ℚ) < 500 ∧ (0 : ℚ) < 10000 ∧
    budget_percentage_of 500 10000 2 ≤ 5 ∧
    budget_optimization (CostField.num 500) 10000 2 = 1.5 :=
  ⟨by norm_num, by norm_num, by norm_num [budget_percentage_of],
    (c5_budget_multiplier_step_function.1 500 10000 2 (by norm_num) (by norm_num)).1
      (by norm_num [budget_percentage_of])⟩

/-! ### C4: the seasonal adjuster ordered rule -/

/-- C4: the seasonal multiplier follows the ordered rule — missing start
date or empty best-time-to-visit gives `1.0`; the travel month's name
occurring in best-time-to-visit gives `1.5`; otherwise, when
best-time-to-visit names a season and the month falls in that season's
canonical range (winter Dec–Feb, summer Mar–May, monsoon Jun–Sep) the
result is `1.3`, and when it names a season but the month falls in none of
the named seasons' ranges the result is `0.7`; with no season named the
result is `1.0`.  In particular `best_time_to_visit="winter"` gives `1.3`
for January and `0.7` for July. -/
theorem c4_seasonal_multiplier_ordered_rule :
    (∀ it : Item, seasonal_optimization it none = 1) ∧
    (∀ (it : Item) (m : Nat), it.best_time_to_visit.toLower = "" →
      seasonal_optimization it (some m) = 1) ∧
    (∀ (it : Item) (m : Nat), it.best_time_to_visit.toLower ≠ "" →
      substrOf (month_name m) it.best_time_to_visit.toLower = true →
      seasonal_optimization it (some m) = 1.5) ∧
    (∀ (it : Item) (m : Nat), it.best_time_to_visit.toLower ≠ "" →
      substrOf (month_name m) it.best_time_to_visit.toLower = false →
      (((m = 12 ∨ m = 1 ∨ m = 2) ∧
          substrOf "winter" it.best_time_to_visit.toLower = true) ∨
       ((m = 3 ∨ m = 4 ∨ m = 5) ∧
          substrOf "summer" it.best_time_to_visit.toLower = true) ∨
       ((m = 6 ∨ m = 7 ∨ m = 8 ∨ m = 9) ∧
          substrOf "monsoon" it.best_time_to_visit.toLower = true)) →
      seasonal_optimization it (some m) = 1.3) ∧
    (∀ (it : Item) (m : Nat), 1 ≤ m → m ≤ 12 →
      it.best_time_to_visit.toLower ≠ "" →
      substrOf (month_name m) it.best_time_to_visit.toLower = false →
      (substrOf "winter" it.best_time_to_visit.toLower = true ∨
       substrOf "summer" it.best_time_to_visit.toLower = true ∨
       substrOf "monsoon" it.best_time_to_visit.toLower = true) →
      ¬((m = 12 ∨ m = 1 ∨ m = 2) ∧
          substrOf "winter" it.best_time_to_visit.toLower = true) →
      ¬((m = 3 ∨ m = 4 ∨ m = 5) ∧
          substrOf "summer" it.best_time_to_visit.toLower = true) →
      ¬((m = 6 ∨ m = 7 ∨ m = 8 ∨ m = 9) ∧
          substrOf "monsoon" it.best_time_to_visit.toLower = true) →
      seasonal_optimization it (some m) = 0.7) ∧
    (∀ (it : Item) (m : Nat), it.best_time_to_visit.toLower ≠ "" →
      substrOf (month_name m) it.best_time_to_visit.toLower = false →
      substrOf "winter" it.best_time_to_visit.toLower = false →
      substrOf "summer" it.best_time_to_visit.toLower = false →
      substrOf "monsoon" it.best_time_to_visit.toLower = false →
      seasonal_optimization it (some m) = 1) ∧
    (seasonal_optimization { best_time_to_visit := "winter" } (some 1) = 1.3 ∧
      seasonal_optimization { best_time_to_visit := "winter" } (some 7) = 0.7) := by
  refine ⟨fun it => rfl,
    fun it m h => by simp [seasonal_optimization, h],
    fun it m h h2 => by simp [seasonal_optimization, h, h2],
    ?_, ?_,
    fun it m h hsub hw hs hmn => by
      simp [seasonal_optimization, h, hsub, hw, hs, hmn],
    by
      have hbt : ({ best_time_to_visit := "winter" } : Item).best_time_to_visit.toLower
          = "winter" := by rw [string_toLower_data]; decide
      have hj : substrOf "january" "winter" = false := by decide
      have hl : substrOf "july" "winter" = false := by decide
      have hw : substrOf "winter" "winter" = true := by decide
      have hs : substrOf "summer" "winter" = false := by decide
      have hm : substrOf "monsoon" "winter" = false := by decide
      constructor <;> simp [seasonal_optimization, month_name, hbt, hj, hl, hw, hs, hm]⟩
  · intro it m h hsub halign
    rcases halign with ⟨hm, hw⟩ | ⟨hm, hs⟩ | ⟨hm, hmn⟩
    · rcases hm with rfl | rfl | rfl <;>
        simp_all [seasonal_optimization, month_name]
    · rcases hm with rfl | rfl | rfl <;>
        simp_all [seasonal_optimization, month_name]
    · rcases hm with rfl | rfl | rfl | rfl <;>
        simp_all [seasonal_optimization, month_name]
  · intro it m h1 h12 hne hsub hseason hw hs hmn
    interval_cases m <;> rcases hseason with h | h | h <;>
      simp_all [seasonal_optimization, month_name]

/-- Witness for C4 at the scenario of the claim:
`best_time_to_visit="winter"` with travel month January. -/
theorem c4_seasonal_witness :
    ({ best_time_to_visit := "winter" } : Item).best_time_to_visit.toLower ≠ "" ∧
    substrOf (month_name 1)
      ({ best_time_to_visit := "winter" } : Item).best_time_to_visit.toLower = false ∧
    seasonal_optimization { best_time_to_visit := "winter" } (some 1) = 1.3 :=
  ⟨by rw [string_toLower_data]; decide, by rw [string_toLower_data]; decide,
    c4_seasonal_multiplier_ordered_rule.2.2.2.1 { best_time_to_visit := "winter" } 1
      (by rw [string_toLower_data]; decide) (by rw [string_toLower_data]; decide)
      (Or.inl ⟨Or.inr (Or.inl rfl), by rw [string_toLower_data]; decide⟩)⟩

/-! ### Scorer helper lemmas -/

theorem excitement_score_bounds (te : String) (tags : List String) :
    0 ≤ excitement_score te tags ∧ excitement_score te tags ≤ 1 := by
  unfold excitement_score
  split_ifs <;> norm_num

theorem free_time_score_bounds (ft : String) (tags : List String) :
    0 ≤ free_time_score ft tags ∧ free_time_score ft tags ≤ 1 := by
  unfold free_time_score
  split_ifs <;> norm_num

theorem openness_score_bounds (op : String) (tags : List String) (r : ℚ) :
    0 ≤ openness_score op tags r ∧ openness_score op tags r ≤ 1 := by
  unfold openness_score
  split_ifs <;> norm_num

theorem planning_score_bounds (pl : String) (tags : List String) :
    0 ≤ planning_score pl tags ∧ planning_score pl tags ≤ 1 := by
  unfold planning_score
  split_ifs <;> norm_num

theorem role_score_bounds (ro : String) (tags : List String) :
    0 ≤ role_score ro tags ∧ role_score ro tags ≤ 1 := by
  unfold role_score
  split_ifs <;> norm_num

/-- The accumulated `total_weight` is always exactly `1`, and under a
non-negative rating the accumulated score lies in `[0,1]`. -/
theorem score_accumulation_spec (it : Item)
    (te ft op pl ro : String) :
    (score_accumulation it te ft op pl ro).2 = 1 ∧
    (0 ≤ itemRating it →
      0 ≤ (score_accumulation it te ft op pl ro).1 ∧
      (score_accumulation it te ft op pl ro).1 ≤ 1) := by
  obtain ⟨e0, e1⟩ := excitement_score_bounds te (it.tags.map String.toLower)
  obtain ⟨f0, f1⟩ := free_time_score_bounds ft (it.tags.map String.toLower)
  obtain ⟨o0, o1⟩ := openness_score_bounds op (it.tags.map String.toLower) (itemRating it)
  obtain ⟨p0, p1⟩ := planning_score_bounds pl (it.tags.map String.toLower)
  obtain ⟨r0, r1⟩ := role_score_bounds ro (it.tags.map String.toLower)
  refine ⟨by simp [score_accumulation]; norm_num, fun hr => ?_⟩
  have m0 : 0 ≤ min (itemRating it / 5) 1 :=
    le_min (by positivity) (by norm_num)
  have m1 : min (itemRating it / 5) 1 ≤ 1 := min_le_right _ _
  constructor <;> (simp only [score_accumulation]; linarith)

/-- A successful run of the preference scorer returns the accumulated score
divided by the constant total weight `1`; under a non-negative rating the
result lies in `[0,1]`. -/
theorem enhanced_score_ok_bounds (it : Item) (prefs : Prefs) (q : ℚ)
    (hr : 0 ≤ itemRating it)
    (h : enhanced_personalization_score it prefs = Except.ok q) :
    0 ≤ q ∧ q ≤ 1 := by
  unfold enhanced_personalization_score at h
  split at h
  · rename_i te ft op pl ro hte hft hop hpl hro
    obtain ⟨hw, hb⟩ := score_accumulation_spec it te ft op pl ro
    simp only [hw] at h
    rw [if_pos (by norm_num : (0:ℚ) < 1)] at h
    have hq : (score_accumulation it te ft op pl ro).1 / 1 = q := by
      simpa using h
    obtain ⟨h0, h1⟩ := hb hr
    rw [div_one] at hq
    constructor <;> linarith
  · simp at h

theorem PrefField.lowered_isSome (p : PrefField) (h : p ≠ PrefField.null) :
    ∃ s, p.lowered = some s := by
  cases p
  · exact ⟨"", rfl⟩
  · exact absurd rfl h
  · rename_i s
    exact ⟨s.toLower, rfl⟩

/-- When no preference field holds `None`, the scorer succeeds. -/
theorem enhanced_score_ok_of_no_null (it : Item) (prefs : Prefs)
    (h1 : prefs.travel_excitement ≠ PrefField.null)
    (h2 : prefs.free_time_preference ≠ PrefField.null)
    (h3 : prefs.openness_to_new_experiences ≠ PrefField.null)
    (h4 : prefs.travel_planning_style ≠ PrefField.null)
    (h5 : prefs.travel_life_role ≠ PrefField.null) :
    ∃ q, enhanced_personalization_score it prefs = Except.ok q := by
  obtain ⟨te, hte⟩ := PrefField.lowered_isSome _ h1
  obtain ⟨ft, hft⟩ := PrefField.lowered_isSome _ h2
  obtain ⟨op, hop⟩ := PrefField.lowered_isSome _ h3
  obtain ⟨pl, hpl⟩ := PrefField.lowered_isSome _ h4
  obtain ⟨ro, hro⟩ := PrefField.lowered_isSome _ h5
  refine ⟨(score_accumulation it te ft op pl ro).1 /
    (score_accumulation it te ft op pl ro).2, ?_⟩
  unfold enhanced_personalization_score
  rw [hte, hft, hop, hpl, hro]
  simp only
  rw [if_pos]
  rw [(score_accumulation_spec it te ft op pl ro).1]
  norm_num

theorem seasonal_optimization_bounds (it : Item) (m : StartMonth) :
    1/2 ≤ seasonal_optimization it m ∧ seasonal_optimization it m ≤ 3/2 := by
  cases m
  · norm_num [seasonal_optimization]
  · simp only [seasonal_optimization]
    split_ifs <;> norm_num

theorem budget_optimization_bounds (cost : CostField) (b : ℚ) (g : ℤ) :
    1/2 ≤ budget_optimization cost b g ∧ budget_optimization cost b g ≤ 3/2 := by
  cases cost
  · simp only [budget_optimization]
    split_ifs <;> norm_num
  · norm_num [budget_optimization]
  · norm_num [budget_optimization]

theorem roundHalfEven_ge (q : ℚ) (n : ℤ) (h : (n : ℚ) ≤ q) : n ≤ roundHalfEven q := by
  have hf : n ≤ ⌊q⌋ := Int.le_floor.mpr h
  simp only [roundHalfEven]
  split_ifs <;> omega

theorem roundHalfEven_le (q : ℚ) (n : ℤ) (h : q ≤ (n : ℚ)) : roundHalfEven q ≤ n := by
  have hf : ⌊q⌋ ≤ n := by
    have := Int.floor_le_floor h
    rwa [Int.floor_intCast] at this
  have hq : (⌊q⌋ : ℚ) ≤ q := Int.floor_le q
  simp only [roundHalfEven]
  split_ifs with hc1 hc2 hc3
  · exact hf
  · by_contra hcon
    push_neg at hcon
    have hn : n ≤ ⌊q⌋ := by omega
    have : (n : ℚ) ≤ (⌊q⌋ : ℚ) := by exact_mod_cast hn
    linarith
  · exact hf
  · by_contra hcon
    push_neg at hcon
    have hn : n ≤ ⌊q⌋ := by omega
    have : (n : ℚ) ≤ (⌊q⌋ : ℚ) := by exact_mod_cast hn
    push_neg at hc1
    linarith

theorem round3_bounds (q : ℚ) (lo hi : ℤ) (h1 : (lo : ℚ) / 1000 ≤ q)
    (h2 : q ≤ (hi : ℚ) / 1000) :
    (lo : ℚ) / 1000 ≤ round3 q ∧ round3 q ≤ (hi : ℚ) / 1000 := by
  have hge : lo ≤ roundHalfEven (q * 1000) := roundHalfEven_ge _ _ (by linarith)
  have hle : roundHalfEven (q * 1000) ≤ hi := roundHalfEven_le _ _ (by linarith)
  unfold round3
  constructor
  · rw [div_le_div_iff_of_pos_right (by norm_num : (0:ℚ) < 1000)]
    exact_mod_cast hge
  · rw [div_le_div_iff_of_pos_right (by norm_num : (0:ℚ) < 1000)]
    exact_mod_cast hle

/-! ### C2: weights, divisor and score range -/

/-- C2: the six fixed weights sum to `1.0`; the accumulated normalizing
divisor `total_weight` equals the constant `1.0` for every item and every
combination of preference strings, because each weight is unconditionally
accumulated; and every score the scorer returns lies in `[0,1]` (for items
whose rating is non-negative, as the catalog data model `rating ∈ [0,5]`
guarantees). -/
theorem c2_weights_and_score_range :
    preference_weights.sum = 1 ∧
    (∀ (it : Item) (te ft op pl ro : String),
      (score_accumulation it te ft op pl ro).2 = 1) ∧
    (∀ (it : Item) (prefs : Prefs) (q : ℚ), 0 ≤ itemRating it →
      enhanced_personalization_score it prefs = Except.ok q →
      0 ≤ q ∧ q ≤ 1) :=
  ⟨by norm_num [preference_weights],
    fun it te ft op pl ro => (score_accumulation_spec it te ft op pl ro).1,
    fun it prefs q hr h => enhanced_score_ok_bounds it prefs q hr h⟩

/-- Witness for C2 at a concrete item and (empty) preference profile. -/
theorem c2_score_witness :
    0 ≤ itemRating { rating := some 4 } ∧
    enhanced_personalization_score { rating := some 4 } {} = Except.ok 0.12 ∧
    (0 ≤ (0.12 : ℚ) ∧ (0.12 : ℚ) ≤ 1) := by
  have hr : 0 ≤ itemRating { rating := some 4 } := by norm_num [itemRating]
  have heval : enhanced_personalization_score { rating := some 4 } {} = Except.ok 0.12 := by
    norm_num [enhanced_personalization_score, PrefField.lowered, score_accumulation,
      excitement_score, free_time_score, openness_score, planning_score, role_score,
      anyTagIn, itemRating, min_def]
    decide
  exact ⟨hr, heval, c2_weights_and_score_range.2.2 _ {} 0.12 hr heval⟩

/-! ### C7: malformed preference fields -/

/-- C7 (amended): a missing preference field, or a string value matching no
keyword rule, contributes `0.0` to its weighted term and the scorer still
returns a valid score; only a field holding `None` makes the scorer raise
(see the counterexample). -/
theorem c7_no_signal_amended :
    (∀ (it : Item) (prefs : Prefs),
      prefs.travel_excitement ≠ PrefField.null →
      prefs.free_time_preference ≠ PrefField.null →
      prefs.openness_to_new_experiences ≠ PrefField.null →
      prefs.travel_planning_style ≠ PrefField.null →
      prefs.travel_life_role ≠ PrefField.null →
      ∃ q, enhanced_personalization_score it prefs = Except.ok q) ∧
    (∀ (te : String) (tags : List String),
      te ≠ "exploring" → te ≠ "relaxing" → te ≠ "cultural" →
      excitement_score te tags = 0) ∧
    (∀ (ft : String) (tags : List String),
      ft ≠ "outdoor" → ft ≠ "indoor" → ft ≠ "meditation/yoga" →
      free_time_score ft tags = 0) ∧
    (∀ (op : String) (tags : List String) (r : ℚ),
      op ≠ "always excited" → op ≠ "prefer familiar things" →
      openness_score op tags r = 0) ∧
    (∀ (pl : String) (tags : List String),
      pl ≠ "well-planned itinerary" → pl ≠ "spontaneous plans" →
      planning_score pl tags = 0) ∧
    (∀ (ro : String) (tags : List String),
      ro ≠ "adventure seeker" → ro ≠ "culture enthusiast" → ro ≠ "relaxation seeker" →
      role_score ro tags = 0) :=
  ⟨fun it prefs h1 h2 h3 h4 h5 => enhanced_score_ok_of_no_null it prefs h1 h2 h3 h4 h5,
    fun te tags ha hb hc => by simp [excitement_score, ha, hb, hc],
    fun ft tags ha hb hc => by simp [free_time_score, ha, hb, hc],
    fun op tags r ha hb => by simp [openness_score, ha, hb],
    fun pl tags ha hb => by simp [planning_score, ha, hb],
    fun ro tags ha hb hc => by simp [role_score, ha, hb, hc]⟩

/-- C7 counterexample: with `travel_excitement = None` the scorer raises
`AttributeError` at `None.lower()` instead of treating the field as no
signal — it does not return a score. -/
theorem c7_counterexample :
    enhanced_personalization_score {} { travel_excitement := PrefField.null } =
      Except.error () := rfl

/-- Witness for C7 at a concrete profile with no `None` field. -/
theorem c7_witness :
    (({} : Prefs).travel_excitement ≠ PrefField.null) ∧
    (∃ q, enhanced_personalization_score { rating := some 4 } {} = Except.ok q) ∧
    ("unexpected value" : String) ≠ "exploring" ∧
    excitement_score "unexpected value" [] = 0 :=
  ⟨by decide,
    c7_no_signal_amended.1 { rating := some 4 } {}
      (by decide) (by decide) (by decide) (by decide) (by decide),
    by decide,
    c7_no_signal_amended.2.1 "unexpected value" [] (by decide) (by decide) (by decide)⟩

/-! ### C6: final score composition and range -/

/-- What one loop iteration of `_get_personalized_recommendations` stores
for an item whose preference scoring succeeds. -/
theorem score_item_ok_spec (user : UserData) (it : Item) (p : ℚ)
    (hp : enhanced_personalization_score it user.personality_answers = Except.ok p) :
    score_item user it = Except.ok
      { item := it
        personalization_score := round3 p
        seasonal_multiplier := round3 (seasonal_optimization it user.start_month)
        budget_multiplier :=
          round3 (budget_optimization it.cost user.budget user.num_of_travellers)
        final_score := round3 (p * seasonal_optimization it user.start_month *
          budget_optimization it.cost user.budget user.num_of_travellers) } := by
  unfold score_item
  rw [hp]
  rfl

/-- C6 (amended): for every successfully scored item, the stored
`final_score` is the product of the *unrounded* personalization score and
the two multipliers, rounded to three decimals; the stored multipliers
always lie in `[0.5, 1.5]`; and, for a non-negative item rating, the stored
`final_score` lies in `[0, 2.25]`.  (Because the three component fields are
stored independently rounded, the product of the *stored* fields can differ
from the stored `final_score` — see the counterexample.) -/
theorem c6_final_score_amended :
    (∀ (it : Item) (m : StartMonth),
      1/2 ≤ seasonal_optimization it m ∧ seasonal_optimization it m ≤ 3/2) ∧
    (∀ (cost : CostField) (b : ℚ) (g : ℤ),
      1/2 ≤ budget_optimization cost b g ∧ budget_optimization cost b g ≤ 3/2) ∧
    (∀ (user : UserData) (it : Item) (si : ScoredItem) (p : ℚ),
      0 ≤ itemRating it →
      enhanced_personalization_score it user.personality_answers = Except.ok p →
      score_item user it = Except.ok si →
      si.final_score = round3 (p * seasonal_optimization it user.start_month *
        budget_optimization it.cost user.budget user.num_of_travellers) ∧
      (1/2 ≤ si.seasonal_multiplier ∧ si.seasonal_multiplier ≤ 3/2) ∧
      (1/2 ≤ si.budget_multiplier ∧ si.budget_multiplier ≤ 3/2) ∧
      (0 ≤ si.final_score ∧ si.final_score ≤ 9/4)) := by
  refine ⟨seasonal_optimization_bounds, budget_optimization_bounds,
    fun user it si p hr hp hsc => ?_⟩
  have he := score_item_ok_spec user it p hp
  have hsi := Except.ok.inj (hsc.symm.trans he)
  subst hsi
  have hs := seasonal_optimization_bounds it user.start_month
  have hb := budget_optimization_bounds it.cost user.budget user.num_of_travellers
  have hq := enhanced_score_ok_bounds it user.personality_answers p hr hp
  have hsr := round3_bounds (seasonal_optimization it user.start_month) 500 1500
    (by push_cast; linarith [hs.1]) (by push_cast; linarith [hs.2])
  have hbr := round3_bounds
    (budget_optimization it.cost user.budget user.num_of_travellers) 500 1500
    (by push_cast; linarith [hb.1]) (by push_cast; linarith [hb.2])
  have hx0 : 0 ≤ p * seasonal_optimization it user.start_month *
      budget_optimization it.cost user.budget user.num_of_travellers :=
    mul_nonneg (mul_nonneg hq.1 (by linarith [hs.1])) (by linarith [hb.1])
  have hps0 : 0 ≤ p * seasonal_optimization it user.start_month :=
    mul_nonneg hq.1 (by linarith [hs.1])
  have hps : p * seasonal_optimization it user.start_month ≤ 3/2 := by
    nlinarith [hq.1, hq.2, hs.1, hs.2]
  have hx1 : p * seasonal_optimization it user.start_month *
      budget_optimization it.cost user.budget user.num_of_travellers ≤ 9/4 := by
    nlinarith [hb.1, hb.2]
  have hfr := round3_bounds (p * seasonal_optimization it user.start_month *
      budget_optimization it.cost user.budget user.num_of_travellers) 0 2250
    (by push_cast; linarith) (by push_cast; linarith)
  push_cast at hsr hbr hfr
  refine ⟨rfl, ⟨by linarith [hsr.1], by linarith [hsr.2]⟩,
    ⟨by linarith [hbr.1], by linarith [hbr.2]⟩,
    ⟨by linarith [hfr.1], by linarith [hfr.2]⟩⟩

theorem c6_hp : enhanced_personalization_score c6item c6user.personality_answers =
    Except.ok (33333/250000) := by
  norm_num [enhanced_personalization_score, PrefField.lowered, score_accumulation,
    excitement_score, free_time_score, openness_score, planning_score, role_score,
    anyTagIn, itemRating, min_def, c6item, c6user]
  decide

theorem c6_seasonal : seasonal_optimization c6item c6user.start_month = 13/10 := by
  have hbt : c6item.best_time_to_visit.toLower = "winter" := by
    rw [show c6item.best_time_to_visit = "winter" from rfl, string_toLower_data]
    decide
  have hj : substrOf "january" "winter" = false := by decide
  have hw : substrOf "winter" "winter" = true := by decide
  have hsm : substrOf "summer" "winter" = false := by decide
  have hmn : substrOf "monsoon" "winter" = false := by decide
  show seasonal_optimization c6item (some 1) = 13/10
  simp [seasonal_optimization, month_name, hbt, hj, hw, hsm, hmn]
  norm_num

theorem c6_eval : score_item c6user c6item = Except.ok
    { item := c6item
      personalization_score := 133/1000
      seasonal_multiplier := 13/10
      budget_multiplier := 1
      final_score := 173/1000 } := by
  have h := score_item_ok_spec c6user c6item _ c6_hp
  rw [c6_seasonal] at h
  rw [show budget_optimization c6item.cost c6user.budget c6user.num_of_travellers = 1
    from rfl] at h
  rw [h]
  norm_num [round3, roundHalfEven]

/-- C6 counterexample: for a concrete scored item, the stored `final_score`
(`0.173`) differs from the product of the stored `personalization_score`,
`seasonal_multiplier` and `budget_multiplier` fields (`0.1729`), so the
claim as stated over the stored fields is false. -/
theorem c6_counterexample :
    ∃ si, score_item c6user c6item = Except.ok si ∧
      si.final_score ≠
        si.personalization_score * si.seasonal_multiplier * si.budget_multiplier :=
  ⟨_, c6_eval, by norm_num⟩

/-- Witness for C6 at the concrete scored item of the counterexample. -/
theorem c6_witness :
    0 ≤ itemRating c6item ∧
    (∃ si, score_item c6user c6item = Except.ok si ∧
      (1/2 ≤ si.seasonal_multiplier ∧ si.seasonal_multiplier ≤ 3/2) ∧
      (1/2 ≤ si.budget_multiplier ∧ si.budget_multiplier ≤ 3/2) ∧
      (0 ≤ si.final_score ∧ si.final_score ≤ 9/4)) := by
  have hr : 0 ≤ itemRating c6item := by norm_num [itemRating, c6item]
  obtain ⟨-, h2, h3, h4⟩ :=
    c6_final_score_amended.2.2 c6user c6item _ _ hr c6_hp c6_eval
  exact ⟨hr, _, c6_eval, h2, h3, h4⟩

/-! ### C3: exact city classification -/

/-- C3: a query whose trimmed, lower-cased form equals a catalog city name
case-insensitively (`d` being the first such record, as `find_one` returns)
classifies as a city with confidence `0.9`, with the lower-cased city and
state taken from `d`; the city check runs before the state and landmark
checks, so nothing about states or landmarks is assumed. -/
theorem c3_exact_city_classification (catalog : Catalog) (q : String) (d : CityDoc)
    (h : catalog.find? (fun x => x.city.toLower == (pyStrip q).toLower) = some d) :
    parse_destination_input catalog q =
      { input_type := InputType.city
        parsed_value := (pyStrip q).toLower
        state := d.state.toLower
        city := some d.city.toLower
        landmark := none
        confidence := 0.9 } := by
  have hpred : (fun x : CityDoc => x.city.toLower == ((pyStrip q).toLower).toLower) =
      (fun x : CityDoc => x.city.toLower == (pyStrip q).toLower) := by
    funext x
    rw [string_toLower_idem]
  unfold parse_destination_input find_city_in_mongodb
  dsimp only
  rw [hpred, h]

/-- Witness for C3: the spec scenario, query `"Jaipur"` against a catalog
holding city `"Jaipur"` in state `"Rajasthan"`. -/
theorem c3_witness :
    ([jaipurDoc].find? (fun x => x.city.toLower == (pyStrip "Jaipur").toLower) =
      some jaipurDoc) ∧
    parse_destination_input [jaipurDoc] "Jaipur" =
      { input_type := InputType.city
        parsed_value := "jaipur"
        state := "rajasthan"
        city := some "jaipur"
        landmark := none
        confidence := 0.9 } := by
  have h : [jaipurDoc].find? (fun x => x.city.toLower == (pyStrip "Jaipur").toLower) =
      some jaipurDoc := by
    simp only [string_toLower_data]
    decide
  have hc := c3_exact_city_classification [jaipurDoc] "Jaipur" jaipurDoc h
  have hpv : (pyStrip "Jaipur").toLower = "jaipur" := by
    rw [string_toLower_data]
    decide
  have hst : jaipurDoc.state.toLower = "rajasthan" := by
    rw [string_toLower_data]
    decide
  have hci : jaipurDoc.city.toLower = "jaipur" := by
    rw [string_toLower_data]
    decide
  rw [hpv, hst, hci] at hc
  exact ⟨h, hc⟩

/-! ### C9: fallback classification -/

/-- C9: a query matching no catalog city (exactly, by prefix or by
substring), no catalog state (exactly or by substring), and no landmark,
classifies as a state with confidence `0.3` and the trimmed lower-cased
query as the state.  The embedded classifier is a total function, so such
inputs cannot raise. -/
theorem c9_fallback_state (catalog : Catalog) (q : String)
    (hcity : ∀ d ∈ catalog, d.city.toLower ≠ (pyStrip q).toLower ∧
      prefixMatch ((pyStrip q).toLower) d.city.toLower = false ∧
      substrOf ((pyStrip q).toLower) d.city.toLower = false)
    (hstate : ∀ d ∈ catalog, d.state.toLower ≠ (pyStrip q).toLower ∧
      substrOf ((pyStrip q).toLower) d.state.toLower = false)
    (hland : ∀ d ∈ catalog, ∀ p ∈ d.places,
      landmark_match ((pyStrip q).toLower) p.name.toLower = false) :
    parse_destination_input catalog q =
      { input_type := InputType.state
        parsed_value := (pyStrip q).toLower
        state := (pyStrip q).toLower
        city := none
        landmark := none
        confidence := 0.3 } := by
  have hq := string_toLower_idem (pyStrip q)
  have h1 : catalog.find?
      (fun d => d.city.toLower == ((pyStrip q).toLower).toLower) = none := by
    rw [List.find?_eq_none]
    intro d hd
    rw [hq]
    simp only [beq_iff_eq]
    exact (hcity d hd).1
  have h2 : catalog.find?
      (fun d => prefixMatch ((pyStrip q).toLower).toLower d.city.toLower) = none := by
    rw [List.find?_eq_none]
    intro d hd
    rw [hq, (hcity d hd).2.1]
    simp
  have h3 : catalog.find?
      (fun d => substrOf ((pyStrip q).toLower).toLower d.city.toLower) = none := by
    rw [List.find?_eq_none]
    intro d hd
    rw [hq, (hcity d hd).2.2]
    simp
  have h4 : catalog.find?
      (fun d => d.state.toLower == ((pyStrip q).toLower).toLower) = none := by
    rw [List.find?_eq_none]
    intro d hd
    rw [hq]
    simp only [beq_iff_eq]
    exact (hstate d hd).1
  have h5 : catalog.find?
      (fun d => substrOf ((pyStrip q).toLower).toLower d.state.toLower) = none := by
    rw [List.find?_eq_none]
    intro d hd
    rw [hq, (hstate d hd).2]
    simp
  have h6 : find_landmark_in_places catalog ((pyStrip q).toLower) = none := by
    unfold find_landmark_in_places
    rw [List.findSome?_eq_none_iff]
    intro d hd
    unfold findPlaceInDoc
    rw [List.find?_eq_none.mpr]
    intro p hp
    rw [hland d hd p hp]
    simp
  unfold parse_destination_input find_city_in_mongodb find_state_in_mongodb
  dsimp only
  rw [h1, h2, h3, h4, h5, h6]

/-- Witness for C9: the query `"zzz"` against the Jaipur catalog matches
nothing and falls back to a state guess with confidence `0.3`. -/
theorem c9_witness :
    (∀ d ∈ [jaipurDoc], d.city.toLower ≠ (pyStrip "zzz").toLower ∧
      prefixMatch ((pyStrip "zzz").toLower) d.city.toLower = false ∧
      substrOf ((pyStrip "zzz").toLower) d.city.toLower = false) ∧
    (∀ d ∈ [jaipurDoc], d.state.toLower ≠ (pyStrip "zzz").toLower ∧
      substrOf ((pyStrip "zzz").toLower) d.state.toLower = false) ∧
    (∀ d ∈ [jaipurDoc], ∀ p ∈ d.places,
      landmark_match ((pyStrip "zzz").toLower) p.name.toLower = false) ∧
    parse_destination_input [jaipurDoc] "zzz" =
      { input_type := InputType.state
        parsed_value := "zzz"
        state := "zzz"
        city := none
        landmark := none
        confidence := 0.3 } := by
  have hcity : ∀ d ∈ [jaipurDoc], d.city.toLower ≠ (pyStrip "zzz").toLower ∧
      prefixMatch ((pyStrip "zzz").toLower) d.city.toLower = false ∧
      substrOf ((pyStrip "zzz").toLower) d.city.toLower = false := by
    simp only [string_toLower_data]
    decide
  have hstate : ∀ d ∈ [jaipurDoc], d.state.toLower ≠ (pyStrip "zzz").toLower ∧
      substrOf ((pyStrip "zzz").toLower) d.state.toLower = false := by
    simp only [string_toLower_data]
    decide
  have hland : ∀ d ∈ [jaipurDoc], ∀ p ∈ d.places,
      landmark_match ((pyStrip "zzz").toLower) p.name.toLower = false := by
    simp only [string_toLower_data, landmark_match, substrOf, splitWords]
    decide
  have hc := c9_fallback_state [jaipurDoc] "zzz" hcity hstate hland
  have hpv : (pyStrip "zzz").toLower = "zzz" := by
    rw [string_toLower_data]
    decide
  rw [hpv] at hc
  exact ⟨hcity, hstate, hland, hc⟩

/-! ### C8: determinism and stable descending sort -/

theorem byFinalScoreDesc_trans : ∀ (a b c : ScoredItem),
    byFinalScoreDesc a b → byFinalScoreDesc b c → byFinalScoreDesc a c := by
  intro a b c h1 h2
  simp only [byFinalScoreDesc, decide_eq_true_eq] at h1 h2 ⊢
  exact le_trans h2 h1

theorem byFinalScoreDesc_total : ∀ (a b : ScoredItem),
    byFinalScoreDesc a b || byFinalScoreDesc b a := by
  intro a b
  simp only [byFinalScoreDesc]
  rcases le_total b.final_score a.final_score with h | h <;> simp [h]

/-- The sorted list is descending by final score. -/
theorem sort_scored_sorted (scored : List ScoredItem) :
    List.Pairwise (fun a b => b.final_score ≤ a.final_score) (sort_scored scored) := by
  have h := List.sorted_mergeSort
    byFinalScoreDesc_trans byFinalScoreDesc_total scored
  exact h.imp (fun hab => by simpa [byFinalScoreDesc] using hab)

/-- Stability: the items carrying any fixed final score stay in their
original relative order through the sort. -/
theorem sort_scored_stable (scored : List ScoredItem) (q : ℚ) :
    (sort_scored scored).filter (fun x => decide (x.final_score = q)) =
      scored.filter (fun x => decide (x.final_score = q)) := by
  have hA : (scored.filter (fun x => decide (x.final_score = q))).Pairwise
      (fun a b => byFinalScoreDesc a b = true) := by
    apply List.pairwise_of_forall_mem_list
    intro a ha b hb
    have ha2 := (List.mem_filter.mp ha).2
    have hb2 := (List.mem_filter.mp hb).2
    simp only [decide_eq_true_eq] at ha2 hb2
    simp [byFinalScoreDesc, ha2, hb2]
  have hsub : List.Sublist (scored.filter (fun x => decide (x.final_score = q)))
      (sort_scored scored) :=
    List.sublist_mergeSort byFinalScoreDesc_trans byFinalScoreDesc_total hA
      (List.filter_sublist _)
  have hsub2 : List.Sublist (scored.filter (fun x => decide (x.final_score = q)))
      ((sort_scored scored).filter (fun x => decide (x.final_score = q))) := by
    have h := hsub.filter (fun x => decide (x.final_score = q))
    rwa [List.filter_filter, (by funext x; simp : (fun x : ScoredItem =>
      decide (x.final_score = q) && decide (x.final_score = q)) =
      (fun x => decide (x.final_score = q)))] at h
  have hperm : List.Perm
      ((sort_scored scored).filter (fun x => decide (x.final_score = q)))
      (scored.filter (fun x => decide (x.final_score = q))) :=
    (List.mergeSort_perm scored byFinalScoreDesc).filter _
  exact (hsub2.eq_of_length hperm.length_eq.symm).symm

/-- C8: the embedded pipeline is a pure function (two runs on the same
inputs coincide); the ranking is sorted descending by `final_score`; the
sort is stable, so items with equal final scores keep their original
catalog order; and on a successful scoring pass the output is exactly the
first `limit` elements of the stable descending sort of the scored
items. -/
theorem c8_determinism_and_stable_sort :
    (∀ (items : List Item) (user_data : UserData) (limit : Nat),
      get_personalized_recommendations items user_data limit =
        get_personalized_recommendations items user_data limit) ∧
    (∀ scored_items : List ScoredItem,
      List.Pairwise (fun a b => b.final_score ≤ a.final_score)
        (sort_scored scored_items)) ∧
    (∀ (scored_items : List ScoredItem) (q : ℚ),
      (sort_scored scored_items).filter (fun x => decide (x.final_score = q)) =
        scored_items.filter (fun x => decide (x.final_score = q))) ∧
    (∀ (items : List Item) (user_data : UserData) (limit : Nat)
        (scored_items : List ScoredItem),
      items.mapM (score_item user_data) = Except.ok scored_items →
      get_personalized_recommendations items user_data limit =
        Except.ok ((sort_scored scored_items).take limit)) := by
  refine ⟨fun _ _ _ => rfl, sort_scored_sorted, sort_scored_stable,
    fun items user_data limit scored_items h => ?_⟩
  unfold get_personalized_recommendations
  rw [h]

/-- Witness for C8 at a one-item catalog. -/
theorem c8_witness :
    [c6item].mapM (score_item c6user) = Except.ok [c6scored] ∧
    get_personalized_recommendations [c6item] c6user 5 =
      Except.ok ((sort_scored [c6scored]).take 5) := by
  have hm : [c6item].mapM (score_item c6user) = Except.ok [c6scored] := by
    have he : score_item c6user c6item = Except.ok c6scored := c6_eval
    simp [List.mapM, List.mapM.loop, he, c6scored, Except.bind]
  exact ⟨hm, c8_determinism_and_stable_sort.2.2.2 [c6item] c6user 5 [c6scored] hm⟩

/-! ### C1: bucket deduplication -/

theorem mem_namesOf {l : List CityInfo} {n : String} (hn : n ≠ "")
    (h : n ∈ l.map CityInfo.name) : n ∈ namesOf l := by
  unfold namesOf
  exact List.mem_filter.mpr ⟨h, by simpa using hn⟩

theorem take_three_subset_take_five {l : List CityInfo} {c : CityInfo}
    (h : c ∈ l.take 3) : c ∈ l.take 5 := by
  have h35 : l.take 3 = (l.take 5).take 3 := by
    rw [List.take_take]
    norm_num
  rw [h35] at h
  exact List.take_subset _ _ h

/-- Membership in the deduplicated/backfilled popular bucket implies the
name is not an AI name and the element comes from the popular top 5. -/
theorem mem_popularAfterDedup {ai_cities all_cities : List CityInfo} {c : CityInfo}
    (h : c ∈ popularAfterDedup ai_cities all_cities) :
    c.name ∉ namesOf ai_cities ∧ c ∈ popular_cities all_cities := by
  unfold popularAfterDedup at h
  dsimp only at h
  split at h
  · obtain ⟨hmem, hp⟩ := List.mem_filter.mp h
    refine ⟨of_decide_eq_true hp, ?_⟩
    exact take_three_subset_take_five hmem
  · obtain ⟨hmem, hp⟩ := List.mem_filter.mp h
    exact ⟨of_decide_eq_true hp, hmem⟩

/-- Membership in the deduplicated/backfilled hidden-gems bucket implies the
name is not an AI name, and is excluded from the pre-dedup popular names
(filter branch) or from the final popular bucket names (backfill branch). -/
theorem mem_hiddenAfterDedup {ai_cities all_cities : List CityInfo} {c : CityInfo}
    (h : c ∈ hiddenAfterDedup ai_cities all_cities) :
    c.name ∉ namesOf ai_cities ∧
    (c.name ∉ namesOf (popular_cities all_cities) ∨
      c.name ∉ (popularAfterDedup ai_cities all_cities).map CityInfo.name) := by
  unfold hiddenAfterDedup at h
  dsimp only at h
  split at h
  · obtain ⟨hmem, hp⟩ := List.mem_filter.mp h
    rw [Bool.and_eq_true] at hp
    exact ⟨of_decide_eq_true hp.1, Or.inr (of_decide_eq_true hp.2)⟩
  · obtain ⟨hmem, hp⟩ := List.mem_filter.mp h
    rw [Bool.and_eq_true] at hp
    exact ⟨of_decide_eq_true hp.1, Or.inl (of_decide_eq_true hp.2)⟩

/-- C1 (amended): in the *initial-recommendation* path
(`generate_initial_recommendations`), a non-empty item name appears in at
most one of the three city buckets, with the priority order
AI-recommended > popular > hidden-gems: the AI bucket is passed through
unchanged, the popular bucket drops AI names, and the hidden-gems bucket
drops AI and popular names (also through both backfill branches).  The
state-level path does not deduplicate — see the counterexample. -/
theorem c1_initial_dedup_amended (ai_cities all_cities : List CityInfo) (n : String)
    (hn : n ≠ "") :
    (initial_city_buckets ai_cities all_cities).ai_recommended = ai_cities ∧
    ¬(n ∈ (initial_city_buckets ai_cities all_cities).ai_recommended.map CityInfo.name ∧
      n ∈ (initial_city_buckets ai_cities all_cities).popular.map CityInfo.name) ∧
    ¬(n ∈ (initial_city_buckets ai_cities all_cities).ai_recommended.map CityInfo.name ∧
      n ∈ (initial_city_buckets ai_cities all_cities).hidden_gems.map CityInfo.name) ∧
    ¬(n ∈ (initial_city_buckets ai_cities all_cities).popular.map CityInfo.name ∧
      n ∈ (initial_city_buckets ai_cities all_cities).hidden_gems.map CityInfo.name) := by
  refine ⟨rfl, ?_, ?_, ?_⟩
  · rintro ⟨hai, hpop⟩
    obtain ⟨c, hc, hcn⟩ := List.mem_map.mp hpop
    have h1 := (mem_popularAfterDedup hc).1
    exact h1 (hcn ▸ mem_namesOf hn hai)
  · rintro ⟨hai, hhid⟩
    obtain ⟨c, hc, hcn⟩ := List.mem_map.mp hhid
    have h1 := (mem_hiddenAfterDedup hc).1
    exact h1 (hcn ▸ mem_namesOf hn hai)
  · rintro ⟨hpop, hhid⟩
    obtain ⟨c, hc, hcn⟩ := List.mem_map.mp hhid
    rcases (mem_hiddenAfterDedup hc).2 with hA | hB
    · obtain ⟨c2, hc2, hcn2⟩ := List.mem_map.mp hpop
      have h2 := (mem_popularAfterDedup hc2).2
      have : n ∈ (popular_cities all_cities).map CityInfo.name :=
        List.mem_map.mpr ⟨c2, h2, hcn2⟩
      exact hA (hcn ▸ mem_namesOf hn this)
    · exact hB (hcn ▸ hpop)

/-- C1 counterexample: the state-level path performs no deduplication — in
a state whose only city is rated 3.5, the same city name appears in both
the popular bucket (top 5 by rating) and the hidden-gems bucket
(rating < 4.0), refuting the claim for that path. -/
theorem c1_counterexample :
    "smalltown" ∈ ((get_state_recommendations [] [smalltown]).popular.map CityInfo.name) ∧
    "smalltown" ∈
      ((get_state_recommendations [] [smalltown]).hidden_gems.map CityInfo.name) := by
  have hsort : sortByRatingDesc [smalltown] = [smalltown] := by
    unfold sortByRatingDesc
    exact List.mergeSort_singleton smalltown
  unfold get_state_recommendations
  constructor
  · simp only [hsort]
    norm_num [smalltown]
  · norm_num [smalltown]

/-- Witness for C1 at a concrete AI shortlist and catalog. -/
theorem c1_witness :
    ("a" : String) ≠ "" ∧
    ¬(("a" : String) ∈ (initial_city_buckets [{ name := "a", rating := 5 }]
        [{ name := "a", rating := 5 }, { name := "b", rating := 3 }]).popular.map
          CityInfo.name ∧
      ("a" : String) ∈ (initial_city_buckets [{ name := "a", rating := 5 }]
        [{ name := "a", rating := 5 }, { name := "b", rating := 3 }]).hidden_gems.map
          CityInfo.name) :=
  ⟨by decide,
    fun hcontra =>
      (c1_initial_dedup_amended [{ name := "a", rating := 5 }]
        [{ name := "a", rating := 5 }, { name := "b", rating := 3 }] "a"
        (by decide)).2.2.2
        ⟨hcontra.1, hcontra.2⟩⟩

end Trawell
